import Mathlib

/-
Verification of the Lesson Playback Controller (the `VideoLearning` page).

The controller is a React component owning a native media element.  We embed
its state hooks as a record, each event handler / effect body as a pure
function on that record (the browser environment — the media element, the
document, window geometry — is passed in explicitly), and prove the spec's
properties about those functions.  Machine numbers that the code manipulates
as IEEE doubles are modelled as exact rationals; `Math.round` is embedded as
floor(x + 1/2), which is the JS rounding rule (half away from zero is wrong:
JS Math.round rounds half toward +infinity, i.e. floor(x + 1/2)).
-/

/-- Snapshot of the native media element as the handlers observe it:
`durationFinite` models `Number.isFinite(video.duration)` (duration is NaN
before metadata loads), `bufferedLen` models `video.buffered.length`, and
`lastBufferedEnd` models `video.buffered.end(video.buffered.length - 1)`. -/
structure MediaState where
  durationFinite : Bool
  duration : ℚ
  currentTime : ℚ
  bufferedLen : ℕ
  lastBufferedEnd : ℚ
  paused : Bool
deriving DecidableEq, Repr

/-- One entry of the ordered course level list (`interface Level`).  The
optional TS fields `locked?` and `hasVideo?` are embedded as `Option Bool`;
JS truthiness of `l.locked` is `(l.locked).getD false`. -/
structure Level where
  id : String
  levelNumber : ℕ
  title : String
  quizEnabled : Bool
  locked : Option Bool
  hasVideo : Option Bool
deriving DecidableEq, Repr

/-- Level detail (`interface CourseLevel extends Level`), adding the
optional video locator. -/
structure CourseLevel extends Level where
  videoPath : Option String
deriving DecidableEq, Repr

/-- JS truthiness of the optional `locked` flag (`Boolean(l.locked)`,
`target?.locked`). -/
def Level.isLocked (l : Level) : Bool := l.locked.getD false

/-- The component's `useState` hooks, one field per hook, in source order. -/
structure ComponentState where
  level : Option CourseLevel
  allLevels : List Level
  isLoading : Bool
  isPlaying : Bool
  isMuted : Bool
  isFullscreen : Bool
  progress : ℚ
  volume : ℚ
  showQuizDialog : Bool
  hasQuiz : Bool
  videoLoadFailed : Bool
  tabSwitchWarning : Bool
  securityWarning : Option String
  watermarkX : ℚ
  watermarkY : ℚ
deriving DecidableEq, Repr

/-- Initial values of the `useState` hooks. -/
def ComponentState.initial : ComponentState where
  level := none
  allLevels := []
  isLoading := true
  isPlaying := false
  isMuted := false
  isFullscreen := false
  progress := 0
  volume := 1
  showQuizDialog := false
  hasQuiz := false
  videoLoadFailed := false
  tabSwitchWarning := false
  securityWarning := none
  watermarkX := 20
  watermarkY := 20

/-- JS `Math.round`: round half toward positive infinity. -/
def jsRound (q : ℚ) : ℤ := ⌊q + 1/2⌋

/-- Payload of `progressAPI.completeLevel`. -/
structure ProgressReport where
  courseId : String
  levelId : String
  videoWatchedPercent : ℤ
deriving DecidableEq, Repr

/-- Body of the 30-second progress-sync interval callback.  `videoPresent`
models `videoRef.current` being non-null and `levelLoaded` models the
`level` state being non-null.  Returns the report posted to the backend on
this tick, if any:
if duration is not finite or ≤ 0 the tick returns without reporting;
otherwise `watchedPercent = (currentTime / duration) * 100` and a report
with `videoWatchedPercent = Math.round(watchedPercent)` is posted exactly
when `watchedPercent > 10`. -/
def progressSyncTick (videoPresent levelLoaded : Bool) (m : MediaState)
    (courseId levelId : String) : Option ProgressReport :=
  if videoPresent && levelLoaded then
    if m.durationFinite = false ∨ m.duration ≤ 0 then none
    else
      let watchedPercent := m.currentTime / m.duration * 100
      if watchedPercent > 10 then
        some { courseId := courseId, levelId := levelId,
               videoWatchedPercent := jsRound watchedPercent }
      else none
  else none

/-- C1: the claim says a report is sent iff `round(100 * currentTime /
duration) > 10`, so that no report with rounded percentage ≤ 10 is ever
sent.  The code gates on the UNROUNDED percentage: at
currentTime = 10.4, duration = 100 the raw percentage 10.4 exceeds 10, so a
report IS sent, and it carries `round(10.4) = 10`, which is not `> 10`. -/
theorem progressSyncTick_sends_rounded_ten :
    progressSyncTick true true
      { durationFinite := true, duration := 100, currentTime := 52/5,
        bufferedLen := 0, lastBufferedEnd := 0, paused := false } "c" "l"
      = some { courseId := "c", levelId := "l", videoWatchedPercent := 10 }
    ∧ ¬ ((10 : ℤ) > 10) := by
  refine ⟨?_, by decide⟩
  norm_num [progressSyncTick, jsRound]

/-- C1 (amended): on a tick with finite positive duration, a report is sent
iff the RAW percentage `currentTime / duration * 100` exceeds 10, and any
report sent carries `videoWatchedPercent = round(currentTime / duration *
100)`.  (Hence a report whose rounded value is exactly 10 is sent whenever
the raw percentage lies in (10, 10.5).) -/
theorem progressSyncTick_spec (m : MediaState) (c l : String)
    (hf : m.durationFinite = true) (hd : 0 < m.duration) :
    (progressSyncTick true true m c l ≠ none
        ↔ 10 < m.currentTime / m.duration * 100)
    ∧ ∀ r, progressSyncTick true true m c l = some r →
        r = { courseId := c, levelId := l,
              videoWatchedPercent := jsRound (m.currentTime / m.duration * 100) } := by
  have hnd : ¬ m.duration ≤ 0 := not_le.mpr hd
  constructor
  · simp [progressSyncTick, hf, hnd]
  · intro r hr
    simp [progressSyncTick, hf, hnd] at hr
    exact hr.2.symm

/-- Witness for `progressSyncTick_spec` at duration 100, currentTime 50:
the report is sent and carries 50. -/
theorem progressSyncTick_spec_witness :
    (progressSyncTick true true
        { durationFinite := true, duration := 100, currentTime := 50,
          bufferedLen := 0, lastBufferedEnd := 0, paused := false } "c" "l" ≠ none
      ↔ 10 < (50 : ℚ) / 100 * 100)
    ∧ ∀ r, progressSyncTick true true
        { durationFinite := true, duration := 100, currentTime := 50,
          bufferedLen := 0, lastBufferedEnd := 0, paused := false } "c" "l" = some r →
        r = { courseId := "c", levelId := "l",
              videoWatchedPercent := jsRound ((50 : ℚ) / 100 * 100) } :=
  progressSyncTick_spec
    { durationFinite := true, duration := 100, currentTime := 50,
      bufferedLen := 0, lastBufferedEnd := 0, paused := false } "c" "l"
    rfl (by norm_num)

/-- Side effects the `ended` handler can issue, in the order issued. -/
inductive PlayerAction where
  | setPlayingFalse : PlayerAction
  | completeLevel (courseId levelId : String) (videoWatchedPercent : ℤ) : PlayerAction
  | fetchLevelsByCourse (courseId : String) : PlayerAction
  | openQuizDialog : PlayerAction
deriving DecidableEq, Repr

/-- Body of `handleVideoEnded`, as the ordered trace of effects it issues:
set `isPlaying` false, post the completion report with
`videoWatchedPercent: 100`, and — in the report's `.then` — issue the
level-list refetch and open the quiz dialog exactly when `hasQuiz` holds.
If the report promise rejects (`reportOk = false`), the `.catch` only
logs, so neither the refetch nor the dialog happens. -/
def handleVideoEnded (courseId levelId : String) (reportOk hasQuiz : Bool) :
    List PlayerAction :=
  [PlayerAction.setPlayingFalse, PlayerAction.completeLevel courseId levelId 100]
    ++ (if reportOk then
          PlayerAction.fetchLevelsByCourse courseId ::
            (if hasQuiz then [PlayerAction.openQuizDialog] else [])
        else [])

/-- Recogniser for completion-report actions. -/
def PlayerAction.isReport : PlayerAction → Bool
  | .completeLevel _ _ _ => true
  | _ => false

/-- Recogniser for level-list refetch actions. -/
def PlayerAction.isFetchLevels : PlayerAction → Bool
  | .fetchLevelsByCourse _ => true
  | _ => false

/-- Recogniser for the quiz-dialog action. -/
def PlayerAction.isOpenQuiz : PlayerAction → Bool
  | .openQuizDialog => true
  | _ => false

/-- C2: on `ended` (with the completion call succeeding), the trace contains
exactly one completion report, it carries percent 100 with the session's
course and level ids, exactly one level-list refetch, the quiz dialog opens
iff `hasQuiz`, and the order is report, then refetch, then dialog. -/
theorem handleVideoEnded_spec (c l : String) (hq : Bool) :
    ((handleVideoEnded c l true hq).countP PlayerAction.isReport = 1)
    ∧ (∀ c2 l2 p, PlayerAction.completeLevel c2 l2 p ∈ handleVideoEnded c l true hq →
        c2 = c ∧ l2 = l ∧ p = 100)
    ∧ ((handleVideoEnded c l true hq).countP PlayerAction.isFetchLevels = 1)
    ∧ ((handleVideoEnded c l true hq).countP PlayerAction.isOpenQuiz
        = if hq then 1 else 0)
    ∧ ((handleVideoEnded c l true hq).findIdx PlayerAction.isReport
        < (handleVideoEnded c l true hq).findIdx PlayerAction.isFetchLevels)
    ∧ (hq = true → (handleVideoEnded c l true hq).findIdx PlayerAction.isFetchLevels
        < (handleVideoEnded c l true hq).findIdx PlayerAction.isOpenQuiz) := by
  have hmem : ∀ hq2 : Bool, ∀ c2 l2 p,
      PlayerAction.completeLevel c2 l2 p ∈ handleVideoEnded c l true hq2 →
      c2 = c ∧ l2 = l ∧ p = 100 := by
    intro hq2 c2 l2 p h
    cases hq2 <;> simp [handleVideoEnded] at h <;> exact h
  cases hq
  · exact ⟨rfl, hmem false, rfl, rfl, Nat.lt_succ_self 1, by intro h; simp at h⟩
  · exact ⟨rfl, hmem true, rfl, rfl, Nat.lt_succ_self 1, fun _ => Nat.lt_succ_self 2⟩

/-- Witness for `handleVideoEnded_spec`: the quiz-ordering implication is
discharged at `hasQuiz = true`. -/
theorem handleVideoEnded_spec_witness :
    ((handleVideoEnded "c" "l" true true).countP PlayerAction.isReport = 1)
    ∧ (∀ c2 l2 p, PlayerAction.completeLevel c2 l2 p ∈ handleVideoEnded "c" "l" true true →
        c2 = "c" ∧ l2 = "l" ∧ p = 100)
    ∧ ((handleVideoEnded "c" "l" true true).countP PlayerAction.isFetchLevels = 1)
    ∧ ((handleVideoEnded "c" "l" true true).countP PlayerAction.isOpenQuiz
        = if true then 1 else 0)
    ∧ ((handleVideoEnded "c" "l" true true).findIdx PlayerAction.isReport
        < (handleVideoEnded "c" "l" true true).findIdx PlayerAction.isFetchLevels)
    ∧ (true = true → (handleVideoEnded "c" "l" true true).findIdx PlayerAction.isFetchLevels
        < (handleVideoEnded "c" "l" true true).findIdx PlayerAction.isOpenQuiz) :=
  handleVideoEnded_spec "c" "l" true

/-- Combined effect of a level-identifier change: the `fetchLevelData`
effect body together with the companion effect that clears the transient
video-failure flag.  `idsPresent` models `courseId` and `levelId` both
being set (the early return when either is missing); `fetchOk` models the
`Promise.all` of the two fetches resolving with payloads `lvl` (level
detail) and `lvls` (course level list); `quizFetchOk` models
`quizAPI.getByLevel` resolving (true) or rejecting (false).  On fetch
failure the error is only logged; the `finally` ends `isLoading` false in
every fetch branch. -/
def loadStep (s : ComponentState) (idsPresent fetchOk : Bool)
    (lvl : CourseLevel) (lvls : List Level) (quizFetchOk : Bool) : ComponentState :=
  if idsPresent = false then { s with videoLoadFailed := false }
  else if fetchOk then
    let s1 : ComponentState :=
      { s with isLoading := false, videoLoadFailed := false,
               level := some lvl, allLevels := lvls }
    if lvl.quizEnabled then { s1 with hasQuiz := quizFetchOk } else s1
  else { s with isLoading := false, videoLoadFailed := false }

/-- State used to exhibit the missing reset: transient flags all active. -/
def dirtySessionState : ComponentState :=
  { ComponentState.initial with
      isPlaying := true, progress := 50, tabSwitchWarning := true,
      securityWarning := some "w", hasQuiz := true }

/-- Level detail used to exhibit the missing reset (quizzes not enabled). -/
def plainLevel : CourseLevel :=
  { id := "L2", levelNumber := 2, title := "t", quizEnabled := false,
    locked := none, hasVideo := none, videoPath := none }

/-- C3: the claim says a level change resets the playing flag, progress,
quiz availability, tab-switch and security warnings, and the video-failure
flag to their initial values.  In the code only the video-failure flag is
reset: after a successful load of a quiz-less level from a dirty session
state, `isPlaying`, `progress`, `tabSwitchWarning`, `securityWarning` and
`hasQuiz` all keep their old (non-initial) values. -/
theorem loadStep_keeps_transient_state :
    (loadStep dirtySessionState true true plainLevel [] false).isPlaying = true
    ∧ (loadStep dirtySessionState true true plainLevel [] false).progress = 50
    ∧ (loadStep dirtySessionState true true plainLevel [] false).tabSwitchWarning = true
    ∧ (loadStep dirtySessionState true true plainLevel [] false).securityWarning = some "w"
    ∧ (loadStep dirtySessionState true true plainLevel [] false).hasQuiz = true
    ∧ ComponentState.initial.isPlaying = false
    ∧ ComponentState.initial.progress = 0
    ∧ ComponentState.initial.tabSwitchWarning = false
    ∧ ComponentState.initial.securityWarning = none
    ∧ ComponentState.initial.hasQuiz = false :=
  ⟨rfl, rfl, rfl, rfl, rfl, rfl, rfl, rfl, rfl, rfl⟩

/-- C3 (amended): a level change resets only the video-failure flag; the
playing flag, progress, dialogs and both warnings are carried over
unchanged, and quiz availability is overwritten (with the quiz lookup's
outcome) only when the fetch succeeds and the new level has quizzes
enabled — otherwise it too is carried over. -/
theorem loadStep_spec (s : ComponentState) (ok qok : Bool)
    (lvl : CourseLevel) (lvls : List Level) :
    (loadStep s true ok lvl lvls qok).videoLoadFailed = false
    ∧ (loadStep s true ok lvl lvls qok).isPlaying = s.isPlaying
    ∧ (loadStep s true ok lvl lvls qok).progress = s.progress
    ∧ (loadStep s true ok lvl lvls qok).tabSwitchWarning = s.tabSwitchWarning
    ∧ (loadStep s true ok lvl lvls qok).securityWarning = s.securityWarning
    ∧ (loadStep s true ok lvl lvls qok).showQuizDialog = s.showQuizDialog
    ∧ (loadStep s true ok lvl lvls qok).hasQuiz
        = (if ok && lvl.quizEnabled then qok else s.hasQuiz) := by
  cases ok <;> rcases h : lvl.quizEnabled with _ | _ <;>
    simp [loadStep, h]

/-- Body of `handleVolumeChange`.  The slider value (already parsed from
the range input's string) is stored as-is and, when the media element
exists, assigned to `video.volume`; no clamping is performed by the
handler.  Returns the new component state and the volume applied to the
element. -/
def handleVolumeChange (videoPresent : Bool) (s : ComponentState) (newVolume : ℚ) :
    ComponentState × Option ℚ :=
  ({ s with volume := newVolume }, if videoPresent then some newVolume else none)

/-- C4: the claim says SetVolume clamps to [0,1] so that input 1.3 yields a
stored and applied volume of 1.0.  The handler stores and applies the raw
value: input 1.3 yields stored and applied volume 1.3, not 1.0. -/
theorem handleVolumeChange_no_clamp :
    (handleVolumeChange true ComponentState.initial (13/10)).1.volume = 13/10
    ∧ (handleVolumeChange true ComponentState.initial (13/10)).2 = some (13/10)
    ∧ (13 : ℚ)/10 ≠ 1 :=
  ⟨rfl, rfl, by norm_num⟩

/-- C4 (amended): SetVolume stores the input value unchanged and applies
that same value to the media element when present; it performs no clamping
itself.  Because the slider is a range input with min 0 and max 1, every
slider-produced input lies in [0,1], and for such inputs the stored volume
lies in [0,1]. -/
theorem handleVolumeChange_spec (vp : Bool) (s : ComponentState) (v : ℚ)
    (h0 : 0 ≤ v) (h1 : v ≤ 1) :
    (handleVolumeChange vp s v).1.volume = v
    ∧ 0 ≤ (handleVolumeChange vp s v).1.volume
    ∧ (handleVolumeChange vp s v).1.volume ≤ 1
    ∧ (handleVolumeChange vp s v).2 = (if vp then some v else none) :=
  ⟨rfl, h0, h1, rfl⟩

/-- Witness for `handleVolumeChange_spec` at the in-range input 1/2. -/
theorem handleVolumeChange_spec_witness :
    (handleVolumeChange true ComponentState.initial (1/2)).1.volume = 1/2
    ∧ 0 ≤ (handleVolumeChange true ComponentState.initial (1/2)).1.volume
    ∧ (handleVolumeChange true ComponentState.initial (1/2)).1.volume ≤ 1
    ∧ (handleVolumeChange true ComponentState.initial (1/2)).2
        = (if true then some (1/2 : ℚ) else none) :=
  handleVolumeChange_spec true ComponentState.initial (1/2)
    (by norm_num) (by norm_num)

/-- Body of `seekBy`.  No-ops when the media element is missing or its
duration is not finite or ≤ 0; otherwise clamps `currentTime +
deltaSeconds` to [0, duration] via `Math.min(duration, Math.max(0, ...))`,
writes the result to the element and recomputes the progress percentage
from it. -/
def seekBy (videoPresent : Bool) (m : MediaState) (s : ComponentState)
    (deltaSeconds : ℚ) : MediaState × ComponentState :=
  if videoPresent = false ∨ m.durationFinite = false ∨ m.duration ≤ 0 then (m, s)
  else
    let nextTime := min m.duration (max 0 (m.currentTime + deltaSeconds))
    ({ m with currentTime := nextTime },
     { s with progress := nextTime / m.duration * 100 })

/-- C5: with a finite positive duration the effective seek target is the
requested time clamped to [0, duration] — targets below 0 land on 0,
targets above the duration land on the duration, in-range targets are hit
exactly, and the stored progress is recomputed from the clamped time; with
a non-finite or non-positive duration the seek is a no-op. -/
theorem seekBy_spec (m : MediaState) (s : ComponentState) (d : ℚ) :
    (m.durationFinite = true → 0 < m.duration →
      ((seekBy true m s d).1.currentTime
          = min m.duration (max 0 (m.currentTime + d))
        ∧ (m.currentTime + d < 0 → (seekBy true m s d).1.currentTime = 0)
        ∧ (m.duration < m.currentTime + d →
            (seekBy true m s d).1.currentTime = m.duration)
        ∧ (0 ≤ m.currentTime + d → m.currentTime + d ≤ m.duration →
            (seekBy true m s d).1.currentTime = m.currentTime + d)
        ∧ (seekBy true m s d).2.progress
            = (seekBy true m s d).1.currentTime / m.duration * 100))
    ∧ (m.durationFinite = false ∨ m.duration ≤ 0 → seekBy true m s d = (m, s)) := by
  constructor
  · intro hf hd
    have hcond : ¬ (True = False ∨ m.durationFinite = false ∨ m.duration ≤ 0) := by
      simp [hf, not_le.mpr hd]
    simp only [seekBy, hf, not_le.mpr hd, or_false, false_or]
    refine ⟨by simp, ?_, ?_, ?_, by simp⟩
    · intro hneg
      have h1 : max 0 (m.currentTime + d) = 0 := max_eq_left hneg.le
      have h2 : min m.duration 0 = 0 := min_eq_right hd.le
      simp [h1, h2]
    · intro hover
      have h0 : (0 : ℚ) ≤ m.currentTime + d := (hd.trans hover).le
      have h1 : max 0 (m.currentTime + d) = m.currentTime + d := max_eq_right h0
      have h2 : min m.duration (m.currentTime + d) = m.duration := min_eq_left hover.le
      simp [h1, h2]
    · intro h0 hle
      have h1 : max 0 (m.currentTime + d) = m.currentTime + d := max_eq_right h0
      have h2 : min m.duration (m.currentTime + d) = m.currentTime + d :=
        min_eq_right hle
      simp [h1, h2]
  · intro h
    rcases h with h | h <;> simp [seekBy, h]

/-- Witness for `seekBy_spec`: seeking forward 10 s at 95 s of a 100 s
video clamps to 100 s. -/
theorem seekBy_spec_witness :
    (seekBy true
        { durationFinite := true, duration := 100, currentTime := 95,
          bufferedLen := 0, lastBufferedEnd := 0, paused := false }
        ComponentState.initial 10).1.currentTime
      = min (100 : ℚ) (max 0 (95 + 10)) :=
  ((seekBy_spec
      { durationFinite := true, duration := 100, currentTime := 95,
        bufferedLen := 0, lastBufferedEnd := 0, paused := false }
      ComponentState.initial 10).1 rfl (by norm_num)).1

/-- Direction argument of `navigateToLevel`. -/
inductive NavDirection where
  | prev : NavDirection
  | next : NavDirection
deriving DecidableEq, Repr

/-- JS `Array.prototype.findIndex`: index of the first match, −1 if none. -/
def jsFindIndex (p : Level → Bool) (ls : List Level) : ℤ :=
  match ls.findIdx? p with
  | some i => (i : ℤ)
  | none => -1

/-- Warning emission of a handler: the `securityWarning` message it sets
(if any) and the self-clear delay it schedules via `setTimeout` (if any). -/
structure WarningEmission where
  message : Option String
  selfClearMs : Option ℕ
deriving DecidableEq, Repr

/-- Emission of a handler path that touches no warning. -/
def WarningEmission.nothing : WarningEmission :=
  { message := none, selfClearMs := none }

/-- Warning text of the locked-level branch of `navigateToLevel`. -/
def lockedLevelMessage : String :=
  "This level is locked. Complete the previous level to unlock it."

/-- The adjacent level that `navigateToLevel` targets: the entry at
`findIndex ± 1` when that index is in bounds. -/
def adjacentLevel (allLevels : List Level) (levelId : String)
    (direction : NavDirection) : Option Level :=
  let currentIndex := jsFindIndex (fun l => l.id == levelId) allLevels
  let targetIndex : ℤ :=
    match direction with
    | .prev => currentIndex - 1
    | .next => currentIndex + 1
  if 0 ≤ targetIndex ∧ targetIndex < allLevels.length then
    allLevels.get? targetIndex.toNat
  else none

/-- Body of `navigateToLevel`.  Computes the current index by JS
`findIndex` (−1 when the current level id is absent from the list) and the
target index one step in the given direction; when the target index is in
bounds, either warns without navigating (locked target; the warning
self-clears after 4000 ms) or navigates to the target level's route.
Returns the level id navigated to (if any) and the warning emitted. -/
def navigateToLevel (allLevels : List Level) (levelId : String)
    (direction : NavDirection) : Option String × WarningEmission :=
  let currentIndex := jsFindIndex (fun l => l.id == levelId) allLevels
  let targetIndex : ℤ :=
    match direction with
    | .prev => currentIndex - 1
    | .next => currentIndex + 1
  if 0 ≤ targetIndex ∧ targetIndex < allLevels.length then
    match allLevels.get? targetIndex.toNat with
    | some target =>
        if target.isLocked then
          (none, { message := some lockedLevelMessage, selfClearMs := some 4000 })
        else (some target.id, WarningEmission.nothing)
    | none => (none, WarningEmission.nothing)
  else (none, WarningEmission.nothing)

/-- Characterisation of `navigateToLevel` through `adjacentLevel`. -/
theorem navigateToLevel_eq (ls : List Level) (lid : String) (dir : NavDirection) :
    navigateToLevel ls lid dir =
      match adjacentLevel ls lid dir with
      | some t =>
          if t.isLocked then
            (none, { message := some lockedLevelMessage, selfClearMs := some 4000 })
          else (some t.id, WarningEmission.nothing)
      | none => (none, WarningEmission.nothing) := by
  unfold navigateToLevel adjacentLevel
  cases dir <;> dsimp only <;> split <;> simp

/-- C6: attempting to move into a locked adjacent level never navigates and
always emits the lock warning, and a navigation happens only when the
adjacent level exists and is not locked (and then goes to that level). -/
theorem navigateToLevel_locked_spec (ls : List Level) (lid : String)
    (dir : NavDirection) :
    (∀ t, adjacentLevel ls lid dir = some t → t.isLocked = true →
        navigateToLevel ls lid dir
          = (none, { message := some lockedLevelMessage, selfClearMs := some 4000 }))
    ∧ (∀ tid, (navigateToLevel ls lid dir).1 = some tid →
        ∃ t, adjacentLevel ls lid dir = some t ∧ t.isLocked = false ∧ tid = t.id) := by
  constructor
  · intro t ht hl
    rw [navigateToLevel_eq, ht]
    simp [hl]
  · intro tid h
    rw [navigateToLevel_eq] at h
    rcases hg : adjacentLevel ls lid dir with _ | t
    · rw [hg] at h; simp at h
    · rw [hg] at h
      by_cases hl : t.isLocked
      · simp [hl] at h
      · simp only [Bool.not_eq_true] at hl
        simp [hl] at h
        exact ⟨t, rfl, hl, h.symm⟩

/-- Unlocked first level used in concrete navigation scenarios. -/
def lvlA : Level :=
  { id := "A", levelNumber := 1, title := "a", quizEnabled := false,
    locked := some false, hasVideo := none }

/-- Locked second level used in concrete navigation scenarios. -/
def lvlB : Level :=
  { id := "B", levelNumber := 2, title := "b", quizEnabled := false,
    locked := some true, hasVideo := none }

/-- Witness for `navigateToLevel_locked_spec`: with list [A, B], B locked,
navigating next from A warns and does not navigate. -/
theorem navigateToLevel_locked_spec_witness :
    navigateToLevel [lvlA, lvlB] "A" NavDirection.next
      = (none, { message := some lockedLevelMessage, selfClearMs := some 4000 }) :=
  (navigateToLevel_locked_spec [lvlA, lvlB] "A" NavDirection.next).1 lvlB
    (by decide) (by decide)

/-- Body of the `visibilitychange` listener: when the document is hidden, a
media element exists and the component believes it is playing, pause the
element, clear the playing flag and raise the tab-switch warning. -/
def handleVisibilityChange (documentHidden videoPresent : Bool)
    (m : MediaState) (s : ComponentState) : MediaState × ComponentState :=
  if documentHidden && videoPresent && s.isPlaying then
    ({ m with paused := true },
     { s with isPlaying := false, tabSwitchWarning := true })
  else (m, s)

/-- Body of the window `blur` listener: as the visibility handler, without
the hidden check. -/
def handleBlur (videoPresent : Bool) (m : MediaState) (s : ComponentState) :
    MediaState × ComponentState :=
  if videoPresent && s.isPlaying then
    ({ m with paused := true },
     { s with isPlaying := false, tabSwitchWarning := true })
  else (m, s)

/-- C7: the claim says the playing state never survives a visibility loss.
Both handlers additionally require `videoRef.current` to be non-null, and
`isPlaying = true` with no mounted element is reachable: navigating levels
while playing keeps the component instance (same route), sets `isLoading`
and renders the spinner — unmounting the element with no path clearing the
playing flag — and the same holds after landing on a video-less level.  In
such a state a visibility loss (and a blur) is a no-op: `isPlaying` stays
true and no tab-switch warning is raised. -/
theorem visibilityLoss_survives_without_element :
    (handleVisibilityChange true false
        { durationFinite := false, duration := 0, currentTime := 0,
          bufferedLen := 0, lastBufferedEnd := 0, paused := false }
        { ComponentState.initial with isPlaying := true, isLoading := true
          }).2.isPlaying = true
    ∧ (handleVisibilityChange true false
        { durationFinite := false, duration := 0, currentTime := 0,
          bufferedLen := 0, lastBufferedEnd := 0, paused := false }
        { ComponentState.initial with isPlaying := true, isLoading := true
          }).2.tabSwitchWarning = false
    ∧ (handleBlur false
        { durationFinite := false, duration := 0, currentTime := 0,
          bufferedLen := 0, lastBufferedEnd := 0, paused := false }
        { ComponentState.initial with isPlaying := true, isLoading := true
          }).2.isPlaying = true
    ∧ (handleBlur false
        { durationFinite := false, duration := 0, currentTime := 0,
          bufferedLen := 0, lastBufferedEnd := 0, paused := false }
        { ComponentState.initial with isPlaying := true, isLoading := true
          }).2.tabSwitchWarning = false :=
  ⟨rfl, rfl, rfl, rfl⟩

/-- C7 (amended): when the document becomes hidden (or the window blurs)
while `isPlaying` is true AND the media element is mounted, the watcher's
step leaves `isPlaying` false, `tabSwitchWarning` true, and the element
paused; when the element is not mounted (level-change loading spinner,
video-less level, failed video) both watchers are no-ops and the playing
flag survives the visibility loss. -/
theorem visibilityLoss_spec (m : MediaState) (s : ComponentState)
    (hp : s.isPlaying = true) :
    ((handleVisibilityChange true true m s).2.isPlaying = false
      ∧ (handleVisibilityChange true true m s).2.tabSwitchWarning = true
      ∧ (handleVisibilityChange true true m s).1.paused = true)
    ∧ ((handleBlur true m s).2.isPlaying = false
      ∧ (handleBlur true m s).2.tabSwitchWarning = true
      ∧ (handleBlur true m s).1.paused = true)
    ∧ handleVisibilityChange true false m s = (m, s)
    ∧ handleBlur false m s = (m, s) := by
  simp [handleVisibilityChange, handleBlur, hp]

/-- Witness for `visibilityLoss_spec` from a playing state. -/
theorem visibilityLoss_spec_witness :
    ((handleVisibilityChange true true
        { durationFinite := true, duration := 100, currentTime := 5,
          bufferedLen := 0, lastBufferedEnd := 0, paused := false }
        { ComponentState.initial with isPlaying := true }).2.isPlaying = false
      ∧ (handleVisibilityChange true true
          { durationFinite := true, duration := 100, currentTime := 5,
            bufferedLen := 0, lastBufferedEnd := 0, paused := false }
          { ComponentState.initial with isPlaying := true }).2.tabSwitchWarning = true
      ∧ (handleVisibilityChange true true
          { durationFinite := true, duration := 100, currentTime := 5,
            bufferedLen := 0, lastBufferedEnd := 0, paused := false }
          { ComponentState.initial with isPlaying := true }).1.paused = true)
    ∧ ((handleBlur true
          { durationFinite := true, duration := 100, currentTime := 5,
            bufferedLen := 0, lastBufferedEnd := 0, paused := false }
          { ComponentState.initial with isPlaying := true }).2.isPlaying = false
      ∧ (handleBlur true
          { durationFinite := true, duration := 100, currentTime := 5,
            bufferedLen := 0, lastBufferedEnd := 0, paused := false }
          { ComponentState.initial with isPlaying := true }).2.tabSwitchWarning = true
      ∧ (handleBlur true
          { durationFinite := true, duration := 100, currentTime := 5,
            bufferedLen := 0, lastBufferedEnd := 0, paused := false }
          { ComponentState.initial with isPlaying := true }).1.paused = true)
    ∧ handleVisibilityChange true false
        { durationFinite := true, duration := 100, currentTime := 5,
          bufferedLen := 0, lastBufferedEnd := 0, paused := false }
        { ComponentState.initial with isPlaying := true }
      = ({ durationFinite := true, duration := 100, currentTime := 5,
           bufferedLen := 0, lastBufferedEnd := 0, paused := false },
         { ComponentState.initial with isPlaying := true })
    ∧ handleBlur false
        { durationFinite := true, duration := 100, currentTime := 5,
          bufferedLen := 0, lastBufferedEnd := 0, paused := false }
        { ComponentState.initial with isPlaying := true }
      = ({ durationFinite := true, duration := 100, currentTime := 5,
           bufferedLen := 0, lastBufferedEnd := 0, paused := false },
         { ComponentState.initial with isPlaying := true }) :=
  visibilityLoss_spec
    { durationFinite := true, duration := 100, currentTime := 5,
      bufferedLen := 0, lastBufferedEnd := 0, paused := false }
    { ComponentState.initial with isPlaying := true } rfl

/-- State hooks of the fuller variant of the `VideoLearning` component (the
copy shipping the custom progress bar), which additionally tracks the
duration, current time, buffered percentage, controls visibility, theater
mode, playback rate, settings menu and hover preview. -/
structure RichPlayerState where
  level : Option CourseLevel
  allLevels : List Level
  isLoading : Bool
  isPlaying : Bool
  isMuted : Bool
  isFullscreen : Bool
  progress : ℚ
  duration : ℚ
  currentTime : ℚ
  bufferedPercent : ℚ
  volume : ℚ
  showQuizDialog : Bool
  hasQuiz : Bool
  videoLoadFailed : Bool
  tabSwitchWarning : Bool
  securityWarning : Option String
  watermarkX : ℚ
  watermarkY : ℚ
  showControls : Bool
  isTheater : Bool
  playbackRate : ℚ
  showSettings : Bool
  hoverTime : Option String
  hoverPosition : ℚ
  showHoverTime : Bool
deriving DecidableEq, Repr

/-- Initial values of the fuller variant's `useState` hooks. -/
def RichPlayerState.initial : RichPlayerState where
  level := none
  allLevels := []
  isLoading := true
  isPlaying := false
  isMuted := false
  isFullscreen := false
  progress := 0
  duration := 0
  currentTime := 0
  bufferedPercent := 0
  volume := 1
  showQuizDialog := false
  hasQuiz := false
  videoLoadFailed := false
  tabSwitchWarning := false
  securityWarning := none
  watermarkX := 20
  watermarkY := 20
  showControls := true
  isTheater := false
  playbackRate := 1
  showSettings := false
  hoverTime := none
  hoverPosition := 0
  showHoverTime := false

/-- Body of the fuller variant's `handleTimeUpdate` (bound to the media
`timeupdate` event): with a finite positive duration it copies the
element's current time and duration into state and recomputes the progress
percentage; it touches nothing else — in particular not the buffered
percentage. -/
def handleTimeUpdateRich (videoPresent : Bool) (m : MediaState)
    (s : RichPlayerState) : RichPlayerState :=
  if videoPresent then
    if m.durationFinite = false ∨ m.duration ≤ 0 then s
    else
      { s with currentTime := m.currentTime, duration := m.duration,
               progress := m.currentTime / m.duration * 100 }
  else s

/-- Body of `updateBuffered` (bound to the media `progress` event): with a
finite positive duration, set the buffered percentage to 0 when there are
no buffered ranges, and otherwise to the end of the last buffered range
over the duration, as a percentage clamped to 100. -/
def updateBuffered (videoPresent : Bool) (m : MediaState)
    (s : RichPlayerState) : RichPlayerState :=
  if videoPresent = false ∨ m.durationFinite = false ∨ m.duration ≤ 0 then s
  else if m.bufferedLen = 0 then { s with bufferedPercent := 0 }
  else { s with bufferedPercent := min 100 (m.lastBufferedEnd / m.duration * 100) }

/-- C8: the claim says every media time update recomputes the buffered
percentage from the buffered ranges.  It does not: with duration 100, last
buffered range ending at 50 and current time 10, the time-update handler
leaves the buffered percentage at its old value 0, while the claimed
formula gives 50.  (The simpler variant of the component has no buffered
percentage at all.) -/
theorem handleTimeUpdate_ignores_buffered :
    (handleTimeUpdateRich true
        { durationFinite := true, duration := 100, currentTime := 10,
          bufferedLen := 1, lastBufferedEnd := 50, paused := false }
        RichPlayerState.initial).bufferedPercent = 0
    ∧ min (100 : ℚ) ((50 : ℚ) / 100 * 100) = 50
    ∧ (0 : ℚ) ≠ 50 := by
  refine ⟨?_, by norm_num, by norm_num⟩
  norm_num [handleTimeUpdateRich, RichPlayerState.initial]

/-- C8 (amended): the buffered percentage is recomputed by `updateBuffered`
on the media `progress` event, not on time update (the time-update handler
leaves it unchanged).  With a finite positive duration and a nonempty set
of buffered ranges it equals min(100, lastBufferedEnd / duration × 100),
never exceeds 100, and is monotonically non-decreasing while the duration
is fixed and the last buffered end grows — as it does during uninterrupted
playback of a single resource. -/
theorem updateBuffered_spec (m1 m2 : MediaState) (s1 s2 : RichPlayerState)
    (hf1 : m1.durationFinite = true) (hd1 : 0 < m1.duration)
    (hf2 : m2.durationFinite = true) (hdur : m2.duration = m1.duration)
    (hb1 : m1.bufferedLen ≠ 0) (hb2 : m2.bufferedLen ≠ 0)
    (hend : m1.lastBufferedEnd ≤ m2.lastBufferedEnd) :
    (updateBuffered true m1 s1).bufferedPercent
        = min 100 (m1.lastBufferedEnd / m1.duration * 100)
    ∧ (updateBuffered true m1 s1).bufferedPercent ≤ 100
    ∧ (updateBuffered true m1 s1).bufferedPercent
        ≤ (updateBuffered true m2 s2).bufferedPercent
    ∧ (handleTimeUpdateRich true m1 s1).bufferedPercent = s1.bufferedPercent := by
  have hd2 : 0 < m2.duration := hdur ▸ hd1
  have e1 : (updateBuffered true m1 s1).bufferedPercent
      = min 100 (m1.lastBufferedEnd / m1.duration * 100) := by
    simp [updateBuffered, hf1, not_le.mpr hd1, hb1]
  have e2 : (updateBuffered true m2 s2).bufferedPercent
      = min 100 (m2.lastBufferedEnd / m2.duration * 100) := by
    simp [updateBuffered, hf2, not_le.mpr hd2, hb2]
  refine ⟨e1, ?_, ?_, ?_⟩
  · rw [e1]; exact min_le_left _ _
  · rw [e1, e2, hdur]
    refine min_le_min le_rfl ?_
    exact mul_le_mul_of_nonneg_right
      ((div_le_div_iff_of_pos_right hd1).mpr hend) (by norm_num)
  · simp [handleTimeUpdateRich, hf1, not_le.mpr hd1]

/-- Witness for `updateBuffered_spec`: duration 100 fixed, last buffered
end growing from 30 to 60. -/
theorem updateBuffered_spec_witness :
    (updateBuffered true
        { durationFinite := true, duration := 100, currentTime := 10,
          bufferedLen := 1, lastBufferedEnd := 30, paused := false }
        RichPlayerState.initial).bufferedPercent
      = min 100 ((30 : ℚ) / 100 * 100)
    ∧ (updateBuffered true
        { durationFinite := true, duration := 100, currentTime := 10,
          bufferedLen := 1, lastBufferedEnd := 30, paused := false }
        RichPlayerState.initial).bufferedPercent ≤ 100
    ∧ (updateBuffered true
        { durationFinite := true, duration := 100, currentTime := 10,
          bufferedLen := 1, lastBufferedEnd := 30, paused := false }
        RichPlayerState.initial).bufferedPercent
      ≤ (updateBuffered true
          { durationFinite := true, duration := 100, currentTime := 40,
            bufferedLen := 1, lastBufferedEnd := 60, paused := false }
          RichPlayerState.initial).bufferedPercent
    ∧ (handleTimeUpdateRich true
        { durationFinite := true, duration := 100, currentTime := 10,
          bufferedLen := 1, lastBufferedEnd := 30, paused := false }
        RichPlayerState.initial).bufferedPercent
      = RichPlayerState.initial.bufferedPercent :=
  updateBuffered_spec
    { durationFinite := true, duration := 100, currentTime := 10,
      bufferedLen := 1, lastBufferedEnd := 30, paused := false }
    { durationFinite := true, duration := 100, currentTime := 40,
      bufferedLen := 1, lastBufferedEnd := 60, paused := false }
    RichPlayerState.initial RichPlayerState.initial
    rfl (by norm_num) rfl rfl (by norm_num) (by norm_num) (by norm_num)

/-- Body of `togglePlay`: with no element it does nothing; when the playing
flag is set it pauses and clears the flag; otherwise it calls
`video.play()` — on success (`playOk`) the flag is set, and on rejection
(autoplay policy) the flag is cleared and a warning is emitted that
self-clears after 4000 ms. -/
def togglePlay (videoPresent playOk : Bool) (m : MediaState)
    (s : ComponentState) : MediaState × ComponentState × WarningEmission :=
  if videoPresent = false then (m, s, WarningEmission.nothing)
  else if s.isPlaying then
    ({ m with paused := true }, { s with isPlaying := false },
     WarningEmission.nothing)
  else if playOk then
    ({ m with paused := false }, { s with isPlaying := true },
     WarningEmission.nothing)
  else
    (m, { s with isPlaying := false },
     { message := some "Playback was blocked by the browser. Click play to start.",
       selfClearMs := some 4000 })

/-- Body of the PrintScreen `keyup` listener: on the PrintScreen key it
sets the warning and schedules its clearing after 5000 ms. -/
def handlePrintScreen (key : String) : WarningEmission :=
  if key == "PrintScreen" then
    { message := some "Screen capture detected. Content use is monitored.",
      selfClearMs := some 5000 }
  else WarningEmission.nothing

/-- Body of one tick of the 2-second devtools heuristic: when the
outer/inner window delta exceeds the 160 px threshold in either dimension,
pause the element if it is playing and set the warning.  No `setTimeout`
follows the `setSecurityWarning` call, so no self-clear is scheduled. -/
def devtoolsTick (outerWidth innerWidth outerHeight innerHeight : ℤ)
    (videoPresent : Bool) (m : MediaState) (s : ComponentState) :
    MediaState × ComponentState × WarningEmission :=
  if 160 < outerWidth - innerWidth ∨ 160 < outerHeight - innerHeight then
    if videoPresent && !m.paused then
      ({ m with paused := true }, { s with isPlaying := false },
       { message := some "Developer tools detected. Playback paused for security.",
         selfClearMs := none })
    else
      (m, s,
       { message := some "Developer tools detected. Playback paused for security.",
         selfClearMs := none })
  else (m, s, WarningEmission.nothing)

/-- C9: the claim says every transition that sets a security warning also
schedules its automatic clearing — including the devtools heuristic.  The
devtools tick sets the warning with no scheduled clear: at outer/inner
width delta 1000 px it emits the message and `selfClearMs = none`. -/
theorem devtoolsTick_warning_never_clears :
    ((devtoolsTick 2000 1000 900 900 true
        { durationFinite := true, duration := 100, currentTime := 5,
          bufferedLen := 0, lastBufferedEnd := 0, paused := false }
        ComponentState.initial).2.2.message
      = some "Developer tools detected. Playback paused for security.")
    ∧ (devtoolsTick 2000 1000 900 900 true
        { durationFinite := true, duration := 100, currentTime := 5,
          bufferedLen := 0, lastBufferedEnd := 0, paused := false }
        ComponentState.initial).2.2.selfClearMs = none := by
  constructor <;> norm_num [devtoolsTick]

/-- C9 (amended): the print-screen warning self-clears after 5000 ms and
the autoplay-blocked and locked-level warnings after 4000 ms, but the
devtools warning schedules no clear at all: it stays until explicitly
dismissed or overwritten. -/
theorem securityWarning_clear_spec :
    (∀ k, (handlePrintScreen k).message.isSome = true →
        (handlePrintScreen k).selfClearMs = some 5000)
    ∧ (∀ vp ok : Bool, ∀ m : MediaState, ∀ s : ComponentState,
        (togglePlay vp ok m s).2.2.message.isSome = true →
          (togglePlay vp ok m s).2.2.selfClearMs = some 4000)
    ∧ (∀ ls : List Level, ∀ lid : String, ∀ dir : NavDirection,
        (navigateToLevel ls lid dir).2.message.isSome = true →
          (navigateToLevel ls lid dir).2.selfClearMs = some 4000)
    ∧ (∀ ow iw oh ih : ℤ, ∀ vp : Bool, ∀ m : MediaState, ∀ s : ComponentState,
        (devtoolsTick ow iw oh ih vp m s).2.2.message.isSome = true →
          (devtoolsTick ow iw oh ih vp m s).2.2.selfClearMs = none) := by
  refine ⟨?_, ?_, ?_, ?_⟩
  · intro k h
    by_cases hk : k == "PrintScreen" <;>
      simp [handlePrintScreen, hk, WarningEmission.nothing] at h ⊢
  · intro vp ok m s h
    cases vp <;> rcases hp : s.isPlaying with _ | _ <;> cases ok <;>
      simp [togglePlay, hp, WarningEmission.nothing] at h ⊢
  · intro ls lid dir h
    rw [navigateToLevel_eq] at h ⊢
    rcases hg : adjacentLevel ls lid dir with _ | t
    · rw [hg] at h
      simp [WarningEmission.nothing] at h
    · rw [hg] at h
      by_cases hl : t.isLocked
      · simp [hl]
      · simp [hl, WarningEmission.nothing] at h
  · intro ow iw oh ih vp m s h
    by_cases hc : 160 < ow - iw ∨ 160 < oh - ih
    · rcases hv : vp && !m.paused with _ | _ <;>
        simp [devtoolsTick, hc, hv]
    · simp [devtoolsTick, hc, WarningEmission.nothing] at h

/-- Witness for `securityWarning_clear_spec`: each antecedent discharged at
an input that actually emits the warning. -/
theorem securityWarning_clear_spec_witness :
    (handlePrintScreen "PrintScreen").selfClearMs = some 5000
    ∧ (togglePlay true false
        { durationFinite := true, duration := 100, currentTime := 5,
          bufferedLen := 0, lastBufferedEnd := 0, paused := true }
        ComponentState.initial).2.2.selfClearMs = some 4000
    ∧ (navigateToLevel [lvlA, lvlB] "A" NavDirection.next).2.selfClearMs = some 4000
    ∧ (devtoolsTick 2000 1000 900 900 true
        { durationFinite := true, duration := 100, currentTime := 5,
          bufferedLen := 0, lastBufferedEnd := 0, paused := false }
        ComponentState.initial).2.2.selfClearMs = none :=
  ⟨securityWarning_clear_spec.1 "PrintScreen" rfl,
   securityWarning_clear_spec.2.1 true false
     { durationFinite := true, duration := 100, currentTime := 5,
       bufferedLen := 0, lastBufferedEnd := 0, paused := true }
     ComponentState.initial rfl,
   securityWarning_clear_spec.2.2.1 [lvlA, lvlB] "A" NavDirection.next (by decide),
   securityWarning_clear_spec.2.2.2 2000 1000 900 900 true
     { durationFinite := true, duration := 100, currentTime := 5,
       bufferedLen := 0, lastBufferedEnd := 0, paused := false }
     ComponentState.initial (by norm_num [devtoolsTick])⟩

/-- C10: when the current level id is not in the loaded list, `findIndex`
returns −1: navigating prev targets index −2 (out of bounds, a no-op with
no warning), while navigating next targets index 0 — the FIRST level of
the list — and behaves as a normal navigation into it: it navigates there
when that level is unlocked and warns when it is locked. -/
theorem navigateToLevel_missing_id (ls : List Level) (lid : String)
    (hmiss : ls.findIdx? (fun l => l.id == lid) = none) :
    navigateToLevel ls lid NavDirection.prev = (none, WarningEmission.nothing)
    ∧ (∀ t, ls.head? = some t →
        (t.isLocked = true → navigateToLevel ls lid NavDirection.next
            = (none, { message := some lockedLevelMessage, selfClearMs := some 4000 }))
        ∧ (t.isLocked = false → navigateToLevel ls lid NavDirection.next
            = (some t.id, WarningEmission.nothing))) := by
  have hidx : jsFindIndex (fun l => l.id == lid) ls = -1 := by
    simp [jsFindIndex, hmiss]
  constructor
  · simp only [navigateToLevel, hidx]
    norm_num
  · intro t ht
    cases ls with
    | nil => simp at ht
    | cons a rest =>
      have ht2 : a = t := by simpa using ht
      subst ht2
      constructor <;> intro hl <;>
        simp [navigateToLevel, hidx, hl]

/-- Witness for `navigateToLevel_missing_id`: with list [A, B] and the
absent id "Z", prev is a silent no-op and next navigates to A (the first
level, unlocked). -/
theorem navigateToLevel_missing_id_witness :
    navigateToLevel [lvlA, lvlB] "Z" NavDirection.prev
      = (none, WarningEmission.nothing)
    ∧ navigateToLevel [lvlA, lvlB] "Z" NavDirection.next
      = (some lvlA.id, WarningEmission.nothing) :=
  ⟨(navigateToLevel_missing_id [lvlA, lvlB] "Z" (by decide)).1,
   ((navigateToLevel_missing_id [lvlA, lvlB] "Z" (by decide)).2 lvlA rfl).2
     (by decide)⟩
